import Mathlib

/-!
Verification of the site-configuration lifecycle manager of the
`xlinux-sh` web-management tool (Python sources under `web_management/`).

The embedding models the parts of the host state the manager touches:

* `liveConf`   : contents of `/etc/nginx/sites-available/<domain>`
                 (`none` = the file does not exist);
* `projConf`   : contents of the project mirror `configs/sites/<domain>.conf`;
* `enabledEnt` : what sits at `/etc/nginx/sites-enabled/<domain>`: nothing,
                 a regular file, or a symlink with a given target name in the
                 sites-available directory;
* `registryFile` : the persisted `sites.json` (missing, unparsable, or a
                 JSON object mapping domains to records);
* `backups`    : contents of backup files created by `backup_config_file`;
* `certFile` / `keyFile` : existence of `/etc/nginx/ssl/<d>/fullchain.pem`
                 and `.../key.pem`;
* `templates`  : contents of the two site templates, when present.

External commands (`nginx -t`, `systemctl reload`, `cp`, `sudo tee`, the
provisioning block of `add_site`, the registry file write) are modelled by a
`Gate` of independent boolean outcomes, one per call site.  Plain `rm -f`
and `mkdir -p` are modelled as always succeeding; `ln -s` fails exactly when
something already occupies the destination path, matching the real command.
Python's `Path.exists()` follows symlinks, so a symlink whose target file is
absent does not "exist"; `Path.is_symlink()` does not follow.
-/

/-- A JSON scalar value as stored in `sites.json` records. -/
inductive JVal where
  | str (s : String)
  | bool (b : Bool)
  | null
deriving DecidableEq, Repr

/-- A JSON object: association list from keys to values (keys unique in
practice, as produced by `json.load` from a JSON object). -/
abbrev JObj := List (String × JVal)

/-- The registry: JSON object mapping domain names to site records. -/
abbrev RawReg := List (String × JObj)

/-- The state of the persisted `sites.json` file. -/
inductive RegFile where
  | missing
  | corrupt
  | good (r : RawReg)
deriving DecidableEq, Repr

/-- What occupies the path `/etc/nginx/sites-enabled/<domain>`. -/
inductive Entry where
  | absent
  | regular
  | symlink (target : String)
deriving DecidableEq, Repr

/-- Which site template `generate_nginx_config` reads:
`site-ssl.conf.template` or `site.conf.template`. -/
inductive TemplateKind where
  | siteSsl
  | sitePlain
deriving DecidableEq, Repr

/-- Host state visible to the lifecycle manager. -/
structure World where
  liveConf : String → Option String
  projConf : String → Option String
  enabledEnt : String → Entry
  registryFile : RegFile
  backups : String → Option String
  certFile : String → Bool
  keyFile : String → Bool
  templates : TemplateKind → Option String
  now : String

/-- Outcomes of the external commands, one field per call site. -/
structure Gate where
  cpOk : Bool
  writeOk : Bool
  testSave : Bool
  testDirect : Bool
  testReload : Bool
  reloadOk : Bool
  provisionOk : Bool
  regSaveOk : Bool

/-- Point update of a string-keyed store. -/
def fupd {α : Type} (f : String → α) (k : String) (v : α) : String → α :=
  fun p => if p = k then v else f p

/-- Python dict assignment `o[k] = v` on an association list: overwrite in
place if the key is present, append otherwise. -/
def assocSet {α : Type} (o : List (String × α)) (k : String) (v : α) :
    List (String × α) :=
  if (o.lookup k).isSome then
    o.map (fun kv => if kv.1 = k then (k, v) else kv)
  else
    o ++ [(k, v)]

/-- Python `config.get(k, dflt)`. -/
def jGet (o : JObj) (k : String) (dflt : JVal) : JVal :=
  (o.lookup k).getD dflt

/-- Python truthiness of the scalar values we model. -/
def truthy : JVal → Bool
  | .str s => s ≠ ""
  | .bool b => b
  | .null => false

/-- `/etc/nginx/sites-available`. -/
def NGINX_CONF_DIR : String := "/etc/nginx/sites-available"

/-- `/etc/nginx/sites-enabled`. -/
def NGINX_ENABLED_DIR : String := "/etc/nginx/sites-enabled"

/-- `/var/www`. -/
def WEB_ROOT_BASE : String := "/var/www"

/-- `/etc/nginx/ssl`. -/
def SSL_DIR : String := "/etc/nginx/ssl"

/-- `web_management/backups/configs`, the backup directory used by
`save_nginx_config`. -/
def BACKUP_CONFIGS_DIR : String := "web_management/backups/configs"

/-- `Path.exists()` at `/etc/nginx/sites-enabled/<d>`: follows symlinks, so
a symlink counts only if its target file in sites-available exists. -/
def enabled_path_exists (w : World) (d : String) : Bool :=
  match w.enabledEnt d with
  | .absent => false
  | .regular => true
  | .symlink t => (w.liveConf t).isSome

/-- `Path.is_symlink()` at `/etc/nginx/sites-enabled/<d>`. -/
def enabled_is_symlink (w : World) (d : String) : Bool :=
  match w.enabledEnt d with
  | .symlink _ => true
  | _ => false

/-- `sites.py::is_site_enabled`: `enabled_link.exists() and
enabled_link.is_symlink()`. -/
def is_site_enabled (w : World) (d : String) : Bool :=
  enabled_path_exists w d && enabled_is_symlink w d

/-- `dict.pop('enabled', None)`: drop the `enabled` key from a record. -/
def popEnabled (o : JObj) : JObj :=
  o.filter (fun kv => kv.1 ≠ "enabled")

/-- `sites_repo.py::load_sites_config`: `{}` when the file is missing or
unreadable; otherwise every record has its `enabled` key stripped. -/
def load_sites_config (w : World) : RawReg :=
  match w.registryFile with
  | .missing => []
  | .corrupt => []
  | .good r => r.map (fun p => (p.1, popEnabled p.2))

/-- The `clean_config` comprehension of `sites_repo.py::save_sites_config`:
every record keeps only keys other than `enabled`. -/
def cleanConfig (r : RawReg) : RawReg :=
  r.map (fun p => (p.1, p.2.filter (fun kv => kv.1 ≠ "enabled")))

/-- `sites_repo.py::save_sites_config`: writes the cleaned registry and
returns `true`; on a write failure the file is unchanged and it returns
`false`. -/
def save_sites_config (w : World) (g : Gate) (r : RawReg) : World × Bool :=
  if g.regSaveOk then
    ({w with registryFile := .good (cleanConfig r)}, true)
  else
    (w, false)

/-- C1: the enabled-state query reads only the filesystem entries, so its
result is identical before and after any `save_sites_config`, whatever
registry content is saved and whether or not the write succeeds. -/
theorem enabled_query_ignores_registry_save
    (w : World) (g : Gate) (r : RawReg) (d : String) :
    is_site_enabled (save_sites_config w g r).1 d = is_site_enabled w d := by
  unfold save_sites_config
  by_cases h : g.regSaveOk
  · simp [h, is_site_enabled, enabled_path_exists, enabled_is_symlink]
  · simp [h]

/-- C2: every record returned by `load_sites_config` lacks the `enabled`
key, and whenever `save_sites_config` writes the file it writes exactly the
cleaned registry, every record of which lacks the `enabled` key. -/
theorem no_enabled_key_on_load_or_save :
    (∀ (w : World) (p : String × JObj), p ∈ load_sites_config w →
      p.2.lookup "enabled" = none) ∧
    (∀ (w : World) (g : Gate) (r : RawReg), g.regSaveOk = true →
      (save_sites_config w g r).1.registryFile = .good (cleanConfig r)) ∧
    (∀ (r : RawReg), ∀ p ∈ cleanConfig r,
      p.2.lookup "enabled" = none) := by
  have hstrip : ∀ (o : JObj),
      (o.filter (fun kv => kv.1 ≠ "enabled")).lookup "enabled" = none := by
    intro o
    induction o with
    | nil => simp
    | cons kv rest ih =>
      by_cases h : kv.1 = "enabled"
      · simpa [List.filter_cons, h] using ih
      · cases kv with
        | mk k v =>
          have ht : (decide ((k, v).1 ≠ "enabled")) = true := by simpa using h
          simp only [List.filter_cons, ht, if_true]
          simp only [List.lookup]
          have hk : ("enabled" == k) = false := by
            simp only [beq_eq_false_iff_ne, ne_eq]
            intro e
            exact h (by simpa using e.symm)
          simp only [hk, cond_false]
          exact ih
  constructor
  · intro w p hp
    unfold load_sites_config at hp
    cases hreg : w.registryFile with
    | missing => rw [hreg] at hp; simp at hp
    | corrupt => rw [hreg] at hp; simp at hp
    | good r =>
      rw [hreg] at hp
      rcases List.mem_map.mp hp with ⟨q, _, hq⟩
      rw [← hq]
      exact hstrip q.2
  constructor
  · intro w g r hg
    unfold save_sites_config
    simp [hg]
  · intro r p hp
    unfold cleanConfig at hp
    rcases List.mem_map.mp hp with ⟨q, _, hq⟩
    rw [← hq]
    exact hstrip q.2

/-- Witness for C2 at a concrete registry holding a stray `enabled` key. -/
theorem no_enabled_key_witness :
    (("a", ([("x", JVal.bool true)] : JObj)).2.lookup "enabled" = none) ∧
    (("a", ([("x", JVal.bool true)] : JObj)).2.lookup "enabled" = none) := by
  constructor
  · exact no_enabled_key_on_load_or_save.1
      { liveConf := fun _ => none
        projConf := fun _ => none
        enabledEnt := fun _ => .absent
        registryFile := .good [("a", [("enabled", .bool true), ("x", .bool true)])]
        backups := fun _ => none
        certFile := fun _ => false
        keyFile := fun _ => false
        templates := fun _ => none
        now := "t" }
      ("a", [("x", JVal.bool true)])
      (by simp [load_sites_config, popEnabled, List.filter])
  · exact no_enabled_key_on_load_or_save.2.2
      [("a", [("enabled", JVal.bool true), ("x", JVal.bool true)])]
      ("a", [("x", JVal.bool true)])
      (by simp [cleanConfig, List.filter])

/-- The message of a Python `ValueError`/`KeyError` raised by
`str.format`. -/
abbrev PyError := String

/-- The PHP location block inserted when `enable_php` is truthy
(`sites.py` lines 36-43). -/
def PHP_CONFIG_FRAGMENT : String :=
  "\n    location ~ \\.php$ \x7b\n        include snippets/fastcgi-php.conf;\n        fastcgi_pass unix:/run/php/php-fpm.sock;\n        fastcgi_param SCRIPT_FILENAME $document_root$fastcgi_script_name;\n        include fastcgi_params;\n    \x7d\n"

/-- The hard-coded minimal template used when the chosen template file is
absent (`sites.py` lines 54-65). -/
def FALLBACK_SITE_TEMPLATE : String :=
  "server \x7b\n    listen 80;\n    server_name \x7bdomain\x7d;\n    root \x7broot_dir\x7d;\n    index index.html index.php;\n\n    location / \x7b\n        try_files $uri $uri/ =404;\n    \x7d\n\x7bphp_config\x7d\n\x7d\n"

/-- `str(v)` as used when a record value lands in a format field. -/
def toStr : JVal → String
  | .str s => s
  | .bool b => cond b "True" "False"
  | .null => "None"

/-- One pass of Python `str.format` over the template characters.
`\x7b\x7b` and `\x7d\x7d` are literal-brace escapes; `\x7b` opens a
field name read up to `\x7d`, which must be one of the supplied keyword
fields (substituted values are not re-scanned); a nested `\x7b`, an
unterminated field, an unknown field or a bare `\x7d` raises (`none`).
Conversion and format-spec suffixes are not modelled; the templates this
program formats use none.  The fuel is the character count, consumed at
least one per step, so it never runs out. -/
def pyFormatAux (fields : List (String × String)) :
    Nat → List Char → Option (List Char)
  | _, [] => some []
  | 0, _ :: _ => none
  | n + 1, c :: cs =>
    if c = '\x7b' then
      match cs with
      | '\x7b' :: cs2 => (pyFormatAux fields n cs2).map (fun r => c :: r)
      | _ =>
        let name := cs.takeWhile (fun d => d != '\x7d' && d != '\x7b')
        match cs.drop name.length with
        | '\x7d' :: cs2 =>
          match fields.lookup (String.mk name) with
          | some v => (pyFormatAux fields n cs2).map (fun r => v.data ++ r)
          | none => none
        | _ => none
    else if c = '\x7d' then
      match cs with
      | '\x7d' :: cs2 => (pyFormatAux fields n cs2).map (fun r => c :: r)
      | _ => none
    else
      (pyFormatAux fields n cs).map (fun r => c :: r)

/-- Python `template.format(**fields)`: the rendered text, or `none` when
`str.format` raises.  On the hard-coded fallback template the raw brace of
`server \x7b` opens a field that runs into the `\x7b` of
`\x7bdomain\x7d`, so formatting it always raises. -/
def pyFormat (t : String) (fields : List (String × String)) :
    Option String :=
  (pyFormatAux fields t.data.length t.data).map String.mk

/-- The template-selection branch of `sites.py::generate_nginx_config`
(lines 45-48): `if enable_ssl and ssl_cert and ssl_key`. -/
def chooseTemplate (cfg : JObj) : TemplateKind :=
  if truthy (jGet cfg "enable_ssl" (.bool false)) &&
     truthy (jGet cfg "ssl_cert" (.str "")) &&
     truthy (jGet cfg "ssl_key" (.str "")) then
    .siteSsl
  else
    .sitePlain

/-- `sites.py::generate_nginx_config`: reads the chosen template file, or
falls back to the hard-coded minimal template when it is absent, then
formats it.  `str.format` raising `ValueError` is `.error`; it propagates
to the caller, since no caller of this function catches it — in
particular, with no template file present the fallback's raw braces make
every call raise before anything is written. -/
def generate_nginx_config (w : World) (domain : String) (cfg : JObj) :
    Except PyError String :=
  let root_dir := toStr (jGet cfg "root_dir"
    (.str (WEB_ROOT_BASE ++ "/" ++ domain)))
  let enable_php := truthy (jGet cfg "enable_php" (.bool false))
  let ssl_cert := toStr (jGet cfg "ssl_cert" (.str ""))
  let ssl_key := toStr (jGet cfg "ssl_key" (.str ""))
  let php_config := if enable_php then PHP_CONFIG_FRAGMENT else ""
  let template :=
    match w.templates (chooseTemplate cfg) with
    | some t => t
    | none => FALLBACK_SITE_TEMPLATE
  match pyFormat template
      [("domain", domain), ("root_dir", root_dir),
       ("php_config", php_config), ("generated_at", w.now),
       ("ssl_cert", ssl_cert), ("ssl_key", ssl_key)] with
  | some s => .ok s
  | none => .error "format"

/-- C9: the renderer picks the TLS template iff `enable_ssl` is true and
both the certificate and the key path are non-empty strings; in every
other case it picks the plain template. -/
theorem tls_template_iff (cfg : JObj) (b : Bool) (c k : String)
    (hb : jGet cfg "enable_ssl" (.bool false) = .bool b)
    (hc : jGet cfg "ssl_cert" (.str "") = .str c)
    (hk : jGet cfg "ssl_key" (.str "") = .str k) :
    (chooseTemplate cfg = .siteSsl ↔ (b = true ∧ c ≠ "" ∧ k ≠ "")) ∧
    (chooseTemplate cfg = .sitePlain ↔ ¬(b = true ∧ c ≠ "" ∧ k ≠ "")) := by
  unfold chooseTemplate
  rw [hb, hc, hk]
  by_cases h1 : b = true <;> by_cases h2 : c = "" <;> by_cases h3 : k = "" <;>
    simp [truthy, h1, h2, h3]

/-- Witness for C9: a record with SSL on and both paths set selects the TLS
template. -/
theorem tls_template_iff_witness :
    chooseTemplate [("enable_ssl", JVal.bool true),
      ("ssl_cert", JVal.str "/etc/nginx/ssl/a/fullchain.pem"),
      ("ssl_key", JVal.str "/etc/nginx/ssl/a/key.pem")] =
      TemplateKind.siteSsl :=
  (tls_template_iff
    [("enable_ssl", JVal.bool true),
     ("ssl_cert", JVal.str "/etc/nginx/ssl/a/fullchain.pem"),
     ("ssl_key", JVal.str "/etc/nginx/ssl/a/key.pem")]
    true "/etc/nginx/ssl/a/fullchain.pem" "/etc/nginx/ssl/a/key.pem"
    (by decide) (by decide) (by decide)).1.mpr
    ⟨rfl, by decide, by decide⟩

/-- The message of a Python `RuntimeError` raised by `run`. -/
abbrev RtError := String

/-- `rollback.py::backup_config_file`.  The `run(cp)` call may raise
`RuntimeError`; the function's own `try/except` catches it, so the
`Except` layer records that no branch escapes.  `backup_dir.mkdir` is
modelled as a no-op on the state we track.  `fileBase` is the basename of
the live file (`file_path.name`), which keys `liveConf`. -/
def backup_config_file (w : World) (g : Gate) (fileBase : String)
    (backupDir : String) : Except RtError (Option String × World) :=
  match w.liveConf fileBase with
  | none => .ok (none, w)
  | some content =>
    let bpath := backupDir ++ "/" ++ fileBase ++ ".backup." ++ w.now
    match (if g.cpOk then Except.ok () else Except.error "cp") with
    | .ok _ =>
      .ok (some bpath, {w with backups := fupd w.backups bpath (some content)})
    | .error _ => .ok (none, w)

/-- Running `backup_config_file` from a caller: since every branch is
`.ok`, unwrapping is total. -/
def backup_config_file_run (w : World) (g : Gate) (fileBase : String)
    (backupDir : String) : Option String × World :=
  match backup_config_file w g fileBase backupDir with
  | .ok v => v
  | .error _ => (none, w)

/-- `rollback.py::restore_config_file`: copy the backup content back over
the live path; no-op when the backup file is missing. -/
def restore_config_file (w : World) (bpath : String) (targetBase : String) :
    World :=
  match w.backups bpath with
  | none => w
  | some c => {w with liveConf := fupd w.liveConf targetBase (some c)}

/-- The guarded restore of `save_nginx_config`:
`if backup_file and backup_file.exists(): restore_config_file(...)`. -/
def restoreIf (w : World) (backupFile : Option String) (target : String) :
    World :=
  match backupFile with
  | some bp => if (w.backups bp).isSome then restore_config_file w bp target
               else w
  | none => w

/-- The `try` block of `sites.py::save_nginx_config` after the backup step:
write the project mirror, `sudo tee` the live copy (its failure raises into
the `except` branch, which restores from backup and returns `False`), then
gate on `nginx -t`, restoring from backup on failure. -/
def saveNginxAfterBackup (w : World) (g : Gate) (domain content : String)
    (backupFile : Option String) : Bool × World :=
  let w2 := {w with projConf := fupd w.projConf domain (some content)}
  if g.writeOk = false then
    (false, restoreIf w2 backupFile domain)
  else
    let w3 := {w2 with liveConf := fupd w2.liveConf domain (some content)}
    if g.testSave = false then
      (false, restoreIf w3 backupFile domain)
    else
      (true, w3)

/-- `sites.py::save_nginx_config` with `auto_backup = True` (the value at
every call site in scope): snapshot the live copy when it exists, then run
the write-validate-restore block. -/
def save_nginx_config (w : World) (g : Gate) (domain content : String) :
    Bool × World :=
  match w.liveConf domain with
  | none => saveNginxAfterBackup w g domain content none
  | some _ =>
    match backup_config_file_run w g domain BACKUP_CONFIGS_DIR with
    | (bf, w1) => saveNginxAfterBackup w1 g domain content bf

/-- A world with no files, an absent registry and a fixed clock. -/
def emptyWorld : World where
  liveConf := fun _ => none
  projConf := fun _ => none
  enabledEnt := fun _ => .absent
  registryFile := .missing
  backups := fun _ => none
  certFile := fun _ => false
  keyFile := fun _ => false
  templates := fun _ => none
  now := "20240101_000000"

/-- Every external command succeeds. -/
def gAll : Gate where
  cpOk := true
  writeOk := true
  testSave := true
  testDirect := true
  testReload := true
  reloadOk := true
  provisionOk := true
  regSaveOk := true

/-- `true` iff an `Except` computation completed without raising. -/
def exceptOk {ε α : Type} : Except ε α → Bool
  | .ok _ => true
  | .error _ => false

/-- C8: `backup_config_file` never propagates an exception; it returns
`none` without touching the state when the live file is missing, returns
`none` when the copy command fails, and on success returns the
`backupDirectory/<basename>.backup.<timestamp>` path. -/
theorem snapshot_total_and_shape (w : World) (g : Gate) (f dir : String) :
    (exceptOk (backup_config_file w g f dir) = true) ∧
    (w.liveConf f = none → backup_config_file w g f dir = .ok (none, w)) ∧
    (g.cpOk = false → (backup_config_file_run w g f dir).1 = none) ∧
    (∀ c, g.cpOk = true → w.liveConf f = some c →
      (backup_config_file_run w g f dir).1 =
        some (dir ++ "/" ++ f ++ ".backup." ++ w.now)) := by
  refine ⟨?_, ?_, ?_, ?_⟩
  · cases hl : w.liveConf f with
    | none => simp [backup_config_file, hl, exceptOk]
    | some c =>
      by_cases hcp : g.cpOk <;>
        simp [backup_config_file, hl, hcp, exceptOk]
  · intro hl
    simp [backup_config_file, hl]
  · intro hcp
    cases hl : w.liveConf f with
    | none => simp [backup_config_file_run, backup_config_file, hl]
    | some c => simp [backup_config_file_run, backup_config_file, hl, hcp]
  · intro c hcp hl
    simp [backup_config_file_run, backup_config_file, hl, hcp]

/-- Witness for C8 on a concrete world: a missing live file snapshots to
`none`; an existing one snapshots to the timestamped backup path. -/
theorem snapshot_witness :
    backup_config_file emptyWorld gAll "a" BACKUP_CONFIGS_DIR =
      .ok (none, emptyWorld) ∧
    (backup_config_file_run
      {emptyWorld with liveConf := fupd emptyWorld.liveConf "a" (some "old")}
      gAll "a" BACKUP_CONFIGS_DIR).1 =
      some (BACKUP_CONFIGS_DIR ++ "/" ++ "a" ++ ".backup." ++
        "20240101_000000") := by
  constructor
  · exact (snapshot_total_and_shape emptyWorld gAll "a"
      BACKUP_CONFIGS_DIR).2.1 rfl
  · exact (snapshot_total_and_shape
      {emptyWorld with liveConf := fupd emptyWorld.liveConf "a" (some "old")}
      gAll "a" BACKUP_CONFIGS_DIR).2.2.2 "old" rfl (by
        simp [fupd, emptyWorld])

/-- `service.py::reload_nginx`: re-checks syntax first, then runs
`systemctl reload`; true only when both succeed. -/
def reload_nginx (g : Gate) : Bool := g.testReload && g.reloadOk

/-- The distinct exit points of `sites.py::enable_site_with_rollback`
(the source returns `False` from each failure exit with its own message). -/
inductive EnableExit where
  | configMissing
  | linkCmdFailed
  | validationFailed
  | reloadFailed
  | enabledOk
deriving DecidableEq, Repr

/-- `sites.py::enable_site_with_rollback`.  `rm -f` always succeeds;
`ln -s` raises iff the destination path is still occupied, which after the
guarded `rm` can only be a dangling symlink (its `exists()` is false, so it
is not removed first).  On a failed check or reload the just-created link
is removed only when the domain was not previously enabled. -/
def enable_site_with_rollback (w : World) (g : Gate) (d : String) :
    EnableExit × World :=
  if (w.liveConf d).isNone then (.configMissing, w)
  else
    let wasEnabled := is_site_enabled w d
    let w1 := if enabled_path_exists w d then
        {w with enabledEnt := fupd w.enabledEnt d .absent} else w
    if w1.enabledEnt d ≠ .absent then
      let w2 := if !wasEnabled && enabled_path_exists w1 d then
          {w1 with enabledEnt := fupd w1.enabledEnt d .absent} else w1
      (.linkCmdFailed, w2)
    else
      let w2 := {w1 with enabledEnt := fupd w1.enabledEnt d (.symlink d)}
      if g.testDirect = false then
        (.validationFailed,
          if wasEnabled then w2
          else {w2 with enabledEnt := fupd w2.enabledEnt d .absent})
      else if reload_nginx g = false then
        (.reloadFailed,
          if wasEnabled then w2
          else {w2 with enabledEnt := fupd w2.enabledEnt d .absent})
      else (.enabledOk, w2)

/-- The distinct exit points of `sites.py::disable_site_with_rollback`. -/
inductive DisableExit where
  | notEnabled
  | validationFailed
  | reloadFailed
  | disabledOk
deriving DecidableEq, Repr

/-- `sites.py::disable_site_with_rollback`.  The guard is
`enabled_link.exists()`, not `is_site_enabled`.  `rm -f` is modelled as
always succeeding, so the `except RuntimeError` branch (which would consult
the captured `backup_state`) is unreachable.  Rollback recreates the
symlink pointing at `NGINX_CONF_DIR/domain`. -/
def disable_site_with_rollback (w : World) (g : Gate) (d : String) :
    DisableExit × World :=
  if enabled_path_exists w d = false then (.notEnabled, w)
  else
    let w1 := {w with enabledEnt := fupd w.enabledEnt d .absent}
    if g.testDirect = false then
      (.validationFailed,
        {w1 with enabledEnt := fupd w1.enabledEnt d (.symlink d)})
    else if reload_nginx g = false then
      (.reloadFailed,
        {w1 with enabledEnt := fupd w1.enabledEnt d (.symlink d)})
    else (.disabledOk, w1)

/-- C3: with the live config present and the enabled path in a state the
`ln` command can claim (anything but a dangling symlink), a failed check or
reload during `enable` rolls the fresh symlink back when the domain was not
previously enabled, and leaves the fresh symlink in place (still failing)
when it was. -/
theorem enable_rollback_on_gate_failure (w : World) (g : Gate) (d : String)
    (hconf : (w.liveConf d).isSome = true)
    (hlink : ∀ t, w.enabledEnt d = .symlink t → (w.liveConf t).isSome = true)
    (hg : (g.testDirect && (g.testReload && g.reloadOk)) = false) :
    (is_site_enabled w d = false →
      ((enable_site_with_rollback w g d).1 = .validationFailed ∨
       (enable_site_with_rollback w g d).1 = .reloadFailed) ∧
      (enable_site_with_rollback w g d).2.enabledEnt d = .absent) ∧
    (is_site_enabled w d = true →
      ((enable_site_with_rollback w g d).1 = .validationFailed ∨
       (enable_site_with_rollback w g d).1 = .reloadFailed) ∧
      (enable_site_with_rollback w g d).2.enabledEnt d = .symlink d) := by
  obtain ⟨cc, hcc⟩ := Option.isSome_iff_exists.mp hconf
  constructor
  · intro hen
    cases hent : w.enabledEnt d with
    | symlink t =>
      have := hlink t hent
      simp [is_site_enabled, enabled_path_exists, enabled_is_symlink,
        hent, this] at hen
    | absent =>
      by_cases ht : g.testDirect
      · have hr : reload_nginx g = false := by
          simpa [reload_nginx, ht] using hg
        simp [enable_site_with_rollback, hcc, hent, is_site_enabled,
          enabled_path_exists, enabled_is_symlink, fupd, ht, hr]
      · simp [enable_site_with_rollback, hcc, hent, is_site_enabled,
          enabled_path_exists, enabled_is_symlink, fupd,
          Bool.eq_false_iff.mpr ht]
    | regular =>
      by_cases ht : g.testDirect
      · have hr : reload_nginx g = false := by
          simpa [reload_nginx, ht] using hg
        simp [enable_site_with_rollback, hcc, hent, is_site_enabled,
          enabled_path_exists, enabled_is_symlink, fupd, ht, hr]
      · simp [enable_site_with_rollback, hcc, hent, is_site_enabled,
          enabled_path_exists, enabled_is_symlink, fupd,
          Bool.eq_false_iff.mpr ht]
  · intro hen
    cases hent : w.enabledEnt d with
    | absent =>
      simp [is_site_enabled, enabled_path_exists, enabled_is_symlink,
        hent] at hen
    | regular =>
      simp [is_site_enabled, enabled_path_exists, enabled_is_symlink,
        hent] at hen
    | symlink t =>
      have hext : (w.liveConf t).isSome = true := hlink t hent
      by_cases ht : g.testDirect
      · have hr : reload_nginx g = false := by
          simpa [reload_nginx, ht] using hg
        simp [enable_site_with_rollback, hcc, hent, is_site_enabled,
          enabled_path_exists, enabled_is_symlink, fupd, ht, hr, hext]
      · simp [enable_site_with_rollback, hcc, hent, is_site_enabled,
          enabled_path_exists, enabled_is_symlink, fupd, hext,
          Bool.eq_false_iff.mpr ht]

/-- A world with only the live config for `a` present. -/
def wLiveA : World :=
  {emptyWorld with liveConf := fupd emptyWorld.liveConf "a" (some "cfg")}

/-- `wLiveA` with `a` enabled through the usual symlink. -/
def wEnabledA : World :=
  {wLiveA with enabledEnt := fupd wLiveA.enabledEnt "a" (.symlink "a")}

/-- A world where a regular file sits at the enabled path of `a`. -/
def wRegA : World :=
  {emptyWorld with enabledEnt := fupd emptyWorld.enabledEnt "a" .regular}

/-- Gate whose direct `nginx -t` call fails. -/
def gNoDirect : Gate := {gAll with testDirect := false}

/-- Witness for C3: with the syntax check failing, enabling a disabled
domain leaves no symlink; re-enabling an enabled one keeps the fresh
symlink and still fails. -/
theorem enable_rollback_witness :
    ((((enable_site_with_rollback wLiveA gNoDirect "a").1 =
        EnableExit.validationFailed ∨
       (enable_site_with_rollback wLiveA gNoDirect "a").1 =
        EnableExit.reloadFailed) ∧
      (enable_site_with_rollback wLiveA gNoDirect "a").2.enabledEnt "a" =
        Entry.absent)) ∧
    ((((enable_site_with_rollback wEnabledA gNoDirect "a").1 =
        EnableExit.validationFailed ∨
       (enable_site_with_rollback wEnabledA gNoDirect "a").1 =
        EnableExit.reloadFailed) ∧
      (enable_site_with_rollback wEnabledA gNoDirect "a").2.enabledEnt "a" =
        Entry.symlink "a")) := by
  constructor
  · exact (enable_rollback_on_gate_failure wLiveA gNoDirect "a"
      (by decide)
      (by
        intro t h
        simp [wLiveA, emptyWorld, fupd] at h)
      (by decide)).1 (by decide)
  · exact (enable_rollback_on_gate_failure wEnabledA gNoDirect "a"
      (by decide)
      (by
        intro t h
        simp only [wEnabledA, wLiveA, emptyWorld, fupd, if_pos] at h ⊢
        have ht : t = "a" := by
          by_contra hne
          simp [Entry.symlink.injEq] at h
          exact hne h.symm
        subst ht
        decide)
      (by decide)).2 (by decide)

/-- C4 counterexample: with a regular file at the enabled path, no symlink
exists for the domain, yet `disable_site_with_rollback` does not report
`NotEnabled` (its guard tests mere path existence). -/
theorem disable_guard_cex :
    enabled_is_symlink wRegA "a" = false ∧
    (disable_site_with_rollback wRegA gAll "a").1 ≠
      DisableExit.notEnabled := by
  decide

/-- C4 amended: `disable` reports `NotEnabled` exactly when nothing usable
sits at the enabled path (`Path.exists()` is false); for a domain enabled
via a live symlink whose own config exists, a failed check or reload
recreates the symlink pointing at the live config path, so the domain is
still enabled afterwards and the operation fails. -/
theorem disable_rollback_amended (w : World) (g : Gate) (d : String) :
    (enabled_path_exists w d = false →
      disable_site_with_rollback w g d = (.notEnabled, w)) ∧
    (∀ t, w.enabledEnt d = .symlink t → (w.liveConf t).isSome = true →
      (w.liveConf d).isSome = true →
      (g.testDirect && (g.testReload && g.reloadOk)) = false →
      ((disable_site_with_rollback w g d).1 = .validationFailed ∨
       (disable_site_with_rollback w g d).1 = .reloadFailed) ∧
      (disable_site_with_rollback w g d).2.enabledEnt d = .symlink d ∧
      is_site_enabled (disable_site_with_rollback w g d).2 d = true) := by
  constructor
  · intro h
    simp [disable_site_with_rollback, h]
  · intro t hent hT hd hg
    by_cases ht : g.testDirect
    · have hr : reload_nginx g = false := by
        simpa [reload_nginx, ht] using hg
      simp [disable_site_with_rollback, ht, hr, fupd,
        is_site_enabled, enabled_path_exists, enabled_is_symlink,
        hent, hT, hd]
    · simp [disable_site_with_rollback, Bool.eq_false_iff.mpr ht, fupd,
        is_site_enabled, enabled_path_exists, enabled_is_symlink,
        hent, hT, hd]

/-- Witness for C4 (amended): an absent entry reports `NotEnabled`; a
symlink-enabled domain survives a failed disable still enabled. -/
theorem disable_rollback_witness :
    (disable_site_with_rollback emptyWorld gAll "a" =
      (DisableExit.notEnabled, emptyWorld)) ∧
    (((disable_site_with_rollback wEnabledA gNoDirect "a").1 =
        DisableExit.validationFailed ∨
      (disable_site_with_rollback wEnabledA gNoDirect "a").1 =
        DisableExit.reloadFailed) ∧
     (disable_site_with_rollback wEnabledA gNoDirect "a").2.enabledEnt "a" =
        Entry.symlink "a" ∧
     is_site_enabled (disable_site_with_rollback wEnabledA gNoDirect "a").2
        "a" = true) := by
  constructor
  · exact (disable_rollback_amended emptyWorld gAll "a").1 (by decide)
  · exact (disable_rollback_amended wEnabledA gNoDirect "a").2 "a"
      (by decide) (by decide) (by decide) (by decide)

/-- C10: a regular file at the enabled path makes `is_site_enabled` false,
yet `disable_site_with_rollback` passes its existence guard: it does not
report `NotEnabled`, and with passing checks it removes the file and
reports success — the two operations disagree on "enabled" here. -/
theorem enabled_notions_disagree_on_regular_file
    (w : World) (g : Gate) (d : String)
    (hent : w.enabledEnt d = .regular) :
    is_site_enabled w d = false ∧
    (disable_site_with_rollback w g d).1 ≠ DisableExit.notEnabled ∧
    (g.testDirect = true → reload_nginx g = true →
      (disable_site_with_rollback w g d).2.enabledEnt d = .absent ∧
      (disable_site_with_rollback w g d).1 = DisableExit.disabledOk) := by
  have hex : enabled_path_exists w d = true := by
    simp [enabled_path_exists, hent]
  refine ⟨?_, ?_, ?_⟩
  · simp [is_site_enabled, enabled_is_symlink, hent]
  · by_cases ht : g.testDirect
    · by_cases hr : reload_nginx g
      · simp [disable_site_with_rollback, hex, ht, hr]
      · simp [disable_site_with_rollback, hex, ht,
          Bool.eq_false_iff.mpr hr]
    · simp [disable_site_with_rollback, hex, Bool.eq_false_iff.mpr ht]
  · intro ht hr
    simp [disable_site_with_rollback, hex, ht, hr, fupd]

/-- Witness for C10 at the concrete regular-file world. -/
theorem enabled_notions_disagree_witness :
    is_site_enabled wRegA "a" = false ∧
    (disable_site_with_rollback wRegA gAll "a").1 ≠
      DisableExit.notEnabled ∧
    (disable_site_with_rollback wRegA gAll "a").2.enabledEnt "a" =
      Entry.absent := by
  have h := enabled_notions_disagree_on_regular_file wRegA gAll "a"
    (by decide)
  exact ⟨h.1, h.2.1, (h.2.2 rfl rfl).1⟩

/-- Gate whose `nginx -t` inside `save_nginx_config` fails. -/
def gNoTestSave : Gate := {gAll with testSave := false}

/-- `save_nginx_config` succeeds iff the live write and its syntax check
both succeed. -/
theorem save_nginx_config_fst (w : World) (g : Gate) (d c : String) :
    (save_nginx_config w g d c).1 = (g.writeOk && g.testSave) := by
  cases hl : w.liveConf d <;>
    by_cases hcp : g.cpOk <;> by_cases hw : g.writeOk <;>
    by_cases ht : g.testSave <;>
      simp [save_nginx_config, saveNginxAfterBackup, backup_config_file_run,
        backup_config_file, restoreIf, restore_config_file, fupd,
        hl, hcp, hw, ht]

/-- `save_nginx_config` never touches the persisted registry. -/
theorem save_nginx_config_registryFile (w : World) (g : Gate) (d c : String) :
    (save_nginx_config w g d c).2.registryFile = w.registryFile := by
  cases hl : w.liveConf d <;>
    by_cases hcp : g.cpOk <;> by_cases hw : g.writeOk <;>
    by_cases ht : g.testSave <;>
      simp [save_nginx_config, saveNginxAfterBackup, backup_config_file_run,
        backup_config_file, restoreIf, restore_config_file, fupd,
        hl, hcp, hw, ht]

/-- When the live file existed, its backup succeeded and the operation
fails, the live copy ends up with its original content. -/
theorem save_nginx_config_rolls_back (w : World) (g : Gate) (d c old : String)
    (hl : w.liveConf d = some old) (hcp : g.cpOk = true)
    (hfail : (g.writeOk && g.testSave) = false) :
    (save_nginx_config w g d c).2.liveConf d = some old := by
  by_cases hw : g.writeOk
  · have ht : g.testSave = false := by simpa [hw] using hfail
    simp [save_nginx_config, saveNginxAfterBackup, backup_config_file_run,
      backup_config_file, restoreIf, restore_config_file, fupd,
      hl, hcp, hw, ht]
  · simp [save_nginx_config, saveNginxAfterBackup, backup_config_file_run,
      backup_config_file, restoreIf, restore_config_file, fupd,
      hl, hcp, Bool.eq_false_iff.mpr hw]

/-- C7 counterexample: with an old live copy present and validation
failing, `save_nginx_config` restores the live file but leaves the new
content in the project mirror, so the two locations differ after the
completed (failed) run. -/
theorem mirror_live_lockstep_cex :
    (save_nginx_config wLiveA gNoTestSave "a" "new").1 = false ∧
    (save_nginx_config wLiveA gNoTestSave "a" "new").2.projConf "a" =
      some "new" ∧
    (save_nginx_config wLiveA gNoTestSave "a" "new").2.liveConf "a" =
      some "cfg" ∧
    (save_nginx_config wLiveA gNoTestSave "a" "new").2.projConf "a" ≠
      (save_nginx_config wLiveA gNoTestSave "a" "new").2.liveConf "a" := by
  decide

/-- C7 amended: after a successful run both locations hold the new
content; after a validation failure with a pre-existing (backed-up) live
file, the live copy is rolled back while the project mirror keeps the new
content. -/
theorem mirror_live_lockstep_amended (w : World) (g : Gate) (d c : String) :
    ((save_nginx_config w g d c).1 = true →
      (save_nginx_config w g d c).2.projConf d = some c ∧
      (save_nginx_config w g d c).2.liveConf d = some c) ∧
    (∀ old, w.liveConf d = some old → g.cpOk = true → g.writeOk = true →
      g.testSave = false →
      (save_nginx_config w g d c).2.projConf d = some c ∧
      (save_nginx_config w g d c).2.liveConf d = some old) := by
  constructor
  · intro hok
    rw [save_nginx_config_fst] at hok
    have hw : g.writeOk = true := by
      cases hgw : g.writeOk <;> simp [hgw] at hok ⊢
    have ht : g.testSave = true := by
      cases hgt : g.testSave <;> simp [hgt, hw] at hok ⊢
    cases hl : w.liveConf d <;> by_cases hcp : g.cpOk <;>
      simp [save_nginx_config, saveNginxAfterBackup, backup_config_file_run,
        backup_config_file, restoreIf, restore_config_file, fupd,
        hl, hcp, hw, ht]
  · intro old hl hcp hw ht
    simp [save_nginx_config, saveNginxAfterBackup, backup_config_file_run,
      backup_config_file, restoreIf, restore_config_file, fupd,
      hl, hcp, hw, ht]

/-- Witness for C7 (amended): both branches at concrete inputs. -/
theorem mirror_live_lockstep_witness :
    ((save_nginx_config wLiveA gAll "a" "new").2.projConf "a" = some "new" ∧
     (save_nginx_config wLiveA gAll "a" "new").2.liveConf "a" = some "new") ∧
    ((save_nginx_config wLiveA gNoTestSave "a" "new").2.projConf "a" =
        some "new" ∧
     (save_nginx_config wLiveA gNoTestSave "a" "new").2.liveConf "a" =
        some "cfg") := by
  constructor
  · exact (mirror_live_lockstep_amended wLiveA gAll "a" "new").1 (by decide)
  · exact (mirror_live_lockstep_amended wLiveA gNoTestSave "a" "new").2
      "cfg" (by decide) rfl rfl rfl

/-- The distinct exit points of `sites.py::add_site`. -/
inductive AddExit where
  | duplicateDomain
  | saveConfigFailed
  | provisionFailed
  | registrySaveFailed
  | addedOk
deriving DecidableEq, Repr

/-- The `site_config` dict literal built by `sites.py::add_site`. -/
def newSiteRecord (w : World) (d : String) (rootDirOpt : Option String)
    (enablePhp : Bool) : JObj :=
  let root_dir :=
    match rootDirOpt with
    | none => WEB_ROOT_BASE ++ "/" ++ d
    | some r => if r = "" then WEB_ROOT_BASE ++ "/" ++ d else r
  [("domain", .str d), ("root_dir", .str root_dir),
   ("enable_php", .bool enablePhp), ("enable_ssl", .bool false),
   ("created_at", .str w.now)]

/-- `sites.py::add_site`: duplicate check against the loaded registry,
render (a `ValueError` from `str.format` propagates: the function's `try`
covers only the provisioning block and catches only `RuntimeError`), then
`save_nginx_config`, provision the document root (one oracle for the whole
`try` block of `mkdir/chown/chmod/index.html`), and only then insert the
record and persist the registry. -/
def add_site (w : World) (g : Gate) (d : String) (rootDirOpt : Option String)
    (enablePhp : Bool) : Except PyError AddExit × World :=
  let sites := load_sites_config w
  if (sites.lookup d).isSome then (.ok .duplicateDomain, w)
  else
    let site_config := newSiteRecord w d rootDirOpt enablePhp
    match generate_nginx_config w d site_config with
    | .error e => (.error e, w)
    | .ok content =>
      let sv := save_nginx_config w g d content
      if sv.1 = false then (.ok .saveConfigFailed, sv.2)
      else if g.provisionOk = false then (.ok .provisionFailed, sv.2)
      else
        let sites2 := assocSet sites d site_config
        let rs := save_sites_config sv.2 g sites2
        if rs.2 = true then (.ok .addedOk, rs.1)
        else (.ok .registrySaveFailed, rs.1)

/-- C6: `add_site` rejects a registered domain untouched; a render error
(`str.format` raising, as it always does when the template file is absent)
propagates with nothing mutated; a config-write or validation failure
leaves the registry unchanged (and, when an old live copy existed and its
backup succeeded, the live file rolled back); a provisioning failure
leaves the registry unchanged; the record is persisted exactly when
render, validation, provisioning and the registry write all succeed — so
no failure, crash included, leaves a half-registered domain. -/
theorem create_transactional (w : World) (g : Gate) (d : String)
    (ro : Option String) (php : Bool) :
    (((load_sites_config w).lookup d).isSome = true →
      add_site w g d ro php = (.ok .duplicateDomain, w)) ∧
    (∀ e, ((load_sites_config w).lookup d).isSome = false →
      generate_nginx_config w d (newSiteRecord w d ro php) = .error e →
      add_site w g d ro php = (.error e, w)) ∧
    (∀ content, ((load_sites_config w).lookup d).isSome = false →
      generate_nginx_config w d (newSiteRecord w d ro php) = .ok content →
      (g.writeOk && g.testSave) = false →
      (add_site w g d ro php).1 = .ok .saveConfigFailed ∧
      (add_site w g d ro php).2.registryFile = w.registryFile ∧
      (∀ old, w.liveConf d = some old → g.cpOk = true →
        (add_site w g d ro php).2.liveConf d = some old)) ∧
    (∀ content, ((load_sites_config w).lookup d).isSome = false →
      generate_nginx_config w d (newSiteRecord w d ro php) = .ok content →
      (g.writeOk && g.testSave) = true → g.provisionOk = false →
      (add_site w g d ro php).1 = .ok .provisionFailed ∧
      (add_site w g d ro php).2.registryFile = w.registryFile) ∧
    (∀ content, ((load_sites_config w).lookup d).isSome = false →
      generate_nginx_config w d (newSiteRecord w d ro php) = .ok content →
      (g.writeOk && g.testSave) = true → g.provisionOk = true →
      g.regSaveOk = false →
      (add_site w g d ro php).1 = .ok .registrySaveFailed ∧
      (add_site w g d ro php).2.registryFile = w.registryFile) ∧
    (∀ content, ((load_sites_config w).lookup d).isSome = false →
      generate_nginx_config w d (newSiteRecord w d ro php) = .ok content →
      (g.writeOk && g.testSave) = true → g.provisionOk = true →
      g.regSaveOk = true →
      (add_site w g d ro php).1 = .ok .addedOk ∧
      (add_site w g d ro php).2.registryFile =
        .good (cleanConfig (assocSet (load_sites_config w) d
          (newSiteRecord w d ro php)))) := by
  refine ⟨?_, ?_, ?_, ?_, ?_, ?_⟩
  · intro hdup
    simp [add_site, hdup]
  · intro e hnd hgen
    simp [add_site, hnd, hgen]
  · intro content hnd hgen hfail
    refine ⟨?_, ?_, ?_⟩
    · simp [add_site, hnd, hgen, save_nginx_config_fst, hfail]
    · simp [add_site, hnd, hgen, save_nginx_config_fst, hfail,
        save_nginx_config_registryFile]
    · intro old hl hcp
      simp [add_site, hnd, hgen, save_nginx_config_fst, hfail]
      exact save_nginx_config_rolls_back w g d _ old hl hcp hfail
  · intro content hnd hgen hok hprov
    constructor
    · simp [add_site, hnd, hgen, save_nginx_config_fst, hok, hprov]
    · simp [add_site, hnd, hgen, save_nginx_config_fst, hok, hprov,
        save_nginx_config_registryFile]
  · intro content hnd hgen hok hprov hreg
    constructor
    · simp [add_site, hnd, hgen, save_nginx_config_fst, hok, hprov,
        save_sites_config, hreg]
    · simp [add_site, hnd, hgen, save_nginx_config_fst, hok, hprov,
        save_sites_config, hreg, save_nginx_config_registryFile]
  · intro content hnd hgen hok hprov hreg
    constructor
    · simp [add_site, hnd, hgen, save_nginx_config_fst, hok, hprov,
        save_sites_config, hreg]
    · simp [add_site, hnd, hgen, save_nginx_config_fst, hok, hprov,
        save_sites_config, hreg]

/-- The registry record used in concrete worlds: site `a`, unsecured. -/
def recA : JObj :=
  [("domain", .str "a"), ("root_dir", .str "/var/www/a"),
   ("enable_php", .bool false), ("enable_ssl", .bool false),
   ("created_at", .str "t0")]

/-- A world whose registry already holds a record for `a`. -/
def wSites : World :=
  {emptyWorld with registryFile := RegFile.good [("a", recA)]}

/-- A format-safe site template: every brace is a valid field. -/
def TMPL_OK : String :=
  "server_name \x7bdomain\x7d; root \x7broot_dir\x7d;\x7bphp_config\x7d \x7bssl_cert\x7d \x7bssl_key\x7d \x7bgenerated_at\x7d"

/-- An empty world that ships the format-safe template files. -/
def wTmpl : World := {emptyWorld with templates := fun _ => some TMPL_OK}

/-- `wLiveA` with the format-safe template files present. -/
def wLiveAT : World := {wLiveA with templates := fun _ => some TMPL_OK}

/-- The value inside `.ok`, with a default for `.error`. -/
def exValD {ε α : Type} (dflt : α) : Except ε α → α
  | .ok v => v
  | .error _ => dflt

instance {ε α : Type} [DecidableEq ε] [DecidableEq α] :
    DecidableEq (Except ε α) := fun x y => by
  cases x with
  | ok a =>
    cases y with
    | ok b =>
      exact if h : a = b then isTrue (by rw [h]) else isFalse (by simp [h])
    | error f => exact isFalse (by simp)
  | error e =>
    cases y with
    | ok b => exact isFalse (by simp)
    | error f =>
      exact if h : e = f then isTrue (by rw [h]) else isFalse (by simp [h])

set_option maxRecDepth 8192 in
/-- Witness for C6: duplicate rejection; the render crash at a world with
no template files (the shipped repository); a successful create with a
format-safe template; a validation failure rolling the live file back with
the registry kept. -/
theorem create_transactional_witness :
    (add_site wSites gAll "a" none false =
      (Except.ok AddExit.duplicateDomain, wSites)) ∧
    (add_site emptyWorld gAll "a" none false =
      (Except.error "format", emptyWorld)) ∧
    ((add_site wTmpl gAll "a" none false).1 = Except.ok AddExit.addedOk) ∧
    ((add_site wLiveAT gNoTestSave "a" none false).1 =
      Except.ok AddExit.saveConfigFailed ∧
     (add_site wLiveAT gNoTestSave "a" none false).2.registryFile =
      wLiveAT.registryFile ∧
     (add_site wLiveAT gNoTestSave "a" none false).2.liveConf "a" =
      some "cfg") := by
  refine ⟨?_, ?_, ?_, ?_⟩
  · exact (create_transactional wSites gAll "a" none false).1 (by decide)
  · exact (create_transactional emptyWorld gAll "a" none false).2.1
      "format" (by decide) (by decide)
  · have hgen : generate_nginx_config wTmpl "a"
        (newSiteRecord wTmpl "a" none false) =
        .ok (exValD "" (generate_nginx_config wTmpl "a"
          (newSiteRecord wTmpl "a" none false))) := by decide
    exact ((create_transactional wTmpl gAll "a" none false).2.2.2.2.2 _
      (by decide) hgen rfl rfl rfl).1
  · have hgen : generate_nginx_config wLiveAT "a"
        (newSiteRecord wLiveAT "a" none false) =
        .ok (exValD "" (generate_nginx_config wLiveAT "a"
          (newSiteRecord wLiveAT "a" none false))) := by decide
    obtain ⟨h1, h2, h3⟩ := (create_transactional wLiveAT gNoTestSave "a"
      none false).2.2.1 _ (by decide) hgen rfl
    exact ⟨h1, h2, h3 "cfg" (by decide) rfl⟩

/-- The distinct exit points of `ssl.py::bind_ssl_to_site` (the source
returns `None` from every branch; exits record which message branch was
taken). -/
inductive BindExit where
  | unknownDomain
  | alreadySecured
  | certMissing
  | saveFailed
  | testFailed
  | bound
deriving DecidableEq, Repr

/-- The record mutations of `bind_ssl_to_site`:
`enable_ssl = True`, `ssl_cert`, `ssl_key`. -/
def bindSslRecord (d : String) (site : JObj) : JObj :=
  assocSet (assocSet (assocSet site "enable_ssl" (.bool true))
    "ssl_cert" (.str (SSL_DIR ++ "/" ++ d ++ "/fullchain.pem")))
    "ssl_key" (.str (SSL_DIR ++ "/" ++ d ++ "/key.pem"))

/-- `ssl.py::bind_ssl_to_site`: after mutating the in-memory record it
renders (a `ValueError` from `str.format` propagates — the function has no
`try` at all) and runs `save_nginx_config`; on its success it immediately
persists the registry (`save_sites_config`, return value ignored) and only
then re-runs `nginx -t` and, if that passes, `reload_nginx` (whose result
is ignored: the success message is printed either way). -/
def bind_ssl_to_site (w : World) (g : Gate) (d : String) :
    Except PyError BindExit × World :=
  let sites := load_sites_config w
  match sites.lookup d with
  | none => (.ok .unknownDomain, w)
  | some site =>
    if truthy (jGet site "enable_ssl" .null) then (.ok .alreadySecured, w)
    else if w.certFile d = false ∨ w.keyFile d = false then
      (.ok .certMissing, w)
    else
      let site2 := bindSslRecord d site
      let sites2 := assocSet sites d site2
      match generate_nginx_config w d site2 with
      | .error e => (.error e, w)
      | .ok content =>
        let sv := save_nginx_config w g d content
        if sv.1 = false then (.ok .saveFailed, sv.2)
        else
          let rs := save_sites_config sv.2 g sites2
          if g.testDirect = true then (.ok .bound, rs.1)
          else (.ok .testFailed, rs.1)

/-- A registered, unsecured site `a` whose certificate files exist (no
template files, as the repository ships). -/
def wSsl : World :=
  {wSites with
    certFile := fupd wSites.certFile "a" true,
    keyFile := fupd wSites.keyFile "a" true,
    liveConf := fupd wSites.liveConf "a" (some "cfg")}

/-- `wSsl` with the format-safe template files present, so the render
succeeds and the run reaches the write/validate/persist sequence. -/
def wSslT : World := {wSsl with templates := fun _ => some TMPL_OK}

/-- C5 counterexample: with the template files present and format-safe,
all gates pass except the final direct `nginx -t` re-check — a failure
branch — yet the registry has already been persisted with
`enable_ssl = true`, so "on any failure the persisted registry is
unchanged and enableSsl remains false" is false. -/
theorem ssl_persist_order_cex :
    (bind_ssl_to_site wSslT gNoDirect "a").1 = .ok BindExit.testFailed ∧
    (bind_ssl_to_site wSslT gNoDirect "a").2.registryFile ≠
      wSslT.registryFile ∧
    (match (bind_ssl_to_site wSslT gNoDirect "a").2.registryFile with
     | .good r => (r.lookup "a").map (fun site => jGet site "enable_ssl" .null)
     | _ => none) = some (.bool true) := by
  refine ⟨by decide, by decide, by decide⟩

/-- C5 amended: the registry is untouched on unknown-domain,
already-secured, missing-certificate, render-crash (`str.format` raising,
as it always does when the template file is absent) and
config-write/validation failures inside `save_nginx_config`; but as soon
as `save_nginx_config` succeeds the SSL fields are persisted, before the
final syntax re-check and the reload, whose outcomes do not affect the
persisted registry. -/
theorem ssl_persist_order_amended (w : World) (g : Gate) (d : String) :
    ((load_sites_config w).lookup d = none →
      bind_ssl_to_site w g d = (.ok .unknownDomain, w)) ∧
    (∀ site, (load_sites_config w).lookup d = some site →
      truthy (jGet site "enable_ssl" .null) = true →
      bind_ssl_to_site w g d = (.ok .alreadySecured, w)) ∧
    (∀ site, (load_sites_config w).lookup d = some site →
      truthy (jGet site "enable_ssl" .null) = false →
      (w.certFile d = false ∨ w.keyFile d = false) →
      bind_ssl_to_site w g d = (.ok .certMissing, w)) ∧
    (∀ site e, (load_sites_config w).lookup d = some site →
      truthy (jGet site "enable_ssl" .null) = false →
      w.certFile d = true → w.keyFile d = true →
      generate_nginx_config w d (bindSslRecord d site) = .error e →
      bind_ssl_to_site w g d = (.error e, w)) ∧
    (∀ site content, (load_sites_config w).lookup d = some site →
      truthy (jGet site "enable_ssl" .null) = false →
      w.certFile d = true → w.keyFile d = true →
      generate_nginx_config w d (bindSslRecord d site) = .ok content →
      (g.writeOk && g.testSave) = false →
      (bind_ssl_to_site w g d).1 = .ok .saveFailed ∧
      (bind_ssl_to_site w g d).2.registryFile = w.registryFile) ∧
    (∀ site content, (load_sites_config w).lookup d = some site →
      truthy (jGet site "enable_ssl" .null) = false →
      w.certFile d = true → w.keyFile d = true →
      generate_nginx_config w d (bindSslRecord d site) = .ok content →
      (g.writeOk && g.testSave) = true → g.regSaveOk = true →
      (bind_ssl_to_site w g d).2.registryFile =
        .good (cleanConfig (assocSet (load_sites_config w) d
          (bindSslRecord d site)))) := by
  refine ⟨?_, ?_, ?_, ?_, ?_, ?_⟩
  · intro hnone
    simp [bind_ssl_to_site, hnone]
  · intro site hsite hsec
    simp [bind_ssl_to_site, hsite, hsec]
  · intro site hsite hsec hmiss
    rcases hmiss with hm | hm <;>
      simp [bind_ssl_to_site, hsite, hsec, hm]
  · intro site e hsite hsec hcert hkey hgen
    simp [bind_ssl_to_site, hsite, hsec, hcert, hkey, hgen]
  · intro site content hsite hsec hcert hkey hgen hfail
    constructor
    · simp [bind_ssl_to_site, hsite, hsec, hcert, hkey, hgen,
        save_nginx_config_fst, hfail]
    · simp [bind_ssl_to_site, hsite, hsec, hcert, hkey, hgen,
        save_nginx_config_fst, hfail, save_nginx_config_registryFile]
  · intro site content hsite hsec hcert hkey hgen hok hreg
    by_cases ht : g.testDirect
    · simp [bind_ssl_to_site, hsite, hsec, hcert, hkey, hgen,
        save_nginx_config_fst, hok, ht, save_sites_config, hreg]
    · simp [bind_ssl_to_site, hsite, hsec, hcert, hkey, hgen,
        save_nginx_config_fst, hok, Bool.eq_false_iff.mpr ht,
        save_sites_config, hreg]

set_option maxRecDepth 8192 in
/-- Witness for C5 (amended): unknown domain untouched; missing cert
untouched; the render crash at the template-less world with the registry
untouched; the SSL fields persisted despite the failing final re-check
when a format-safe template is present. -/
theorem ssl_persist_order_witness :
    (bind_ssl_to_site emptyWorld gAll "a" =
      (Except.ok BindExit.unknownDomain, emptyWorld)) ∧
    (bind_ssl_to_site wSites gAll "a" =
      (Except.ok BindExit.certMissing, wSites)) ∧
    (bind_ssl_to_site wSsl gAll "a" = (Except.error "format", wSsl)) ∧
    ((bind_ssl_to_site wSslT gNoDirect "a").2.registryFile =
      .good (cleanConfig (assocSet (load_sites_config wSslT) "a"
        (bindSslRecord "a" recA)))) := by
  refine ⟨?_, ?_, ?_, ?_⟩
  · exact (ssl_persist_order_amended emptyWorld gAll "a").1 rfl
  · exact (ssl_persist_order_amended wSites gAll "a").2.2.1 recA
      (by decide) (by decide) (Or.inl rfl)
  · exact (ssl_persist_order_amended wSsl gAll "a").2.2.2.1 recA "format"
      (by decide) (by decide) (by decide) (by decide) (by decide)
  · have hgen : generate_nginx_config wSslT "a" (bindSslRecord "a" recA) =
        .ok (exValD "" (generate_nginx_config wSslT "a"
          (bindSslRecord "a" recA))) := by decide
    exact (ssl_persist_order_amended wSslT gNoDirect "a").2.2.2.2.2 recA _
      (by decide) (by decide) (by decide) (by decide) hgen rfl rfl
